import Mathlib

/-! discord-bot: the message handler and the Groq gateway of `main.go`.

A shallow embedding of `messageHandler` and `callGroq`.

* Go strings and byte slices are Lean `String`s (valid UTF-8 text).
* The program's dealings with the outside are recorded, in order, in a trace of
  `Event`s: a call of `callGroq`, a call of `client.Do`, a call of
  `s.ChannelMessageSend`.
* The library calls whose results the program branches on (`os.Getenv`,
  `json.Marshal`, `http.NewRequestWithContext`, `client.Do`, `io.ReadAll`,
  `json.Unmarshal`) are fields of an `Env`, so every theorem holds for whatever
  those calls answer.
* A failed single-value type assertion is a Go run-time panic: `Outcome.panicked`.
-/

namespace DiscordBot

/-! ## Go values -/

/-- The dynamic values `json.Unmarshal` stores in an `interface{}`: `nil`, `bool`,
`float64`, `string`, `[]interface{}` and `map[string]interface{}`. The program never
looks at a number, so a number keeps its literal text. -/
inductive JSONValue where
  | null
  | bool (b : Bool)
  | number (lit : String)
  | str (s : String)
  | arr (elems : List JSONValue)
  | obj (fields : List (String × JSONValue))

/-- A Go `map[string]interface{}`: at most the first entry of a key counts. -/
abbrev JSONObject := List (String × JSONValue)

/-- Go map indexing `m[key]` on a `map[string]interface{}`: the stored value, or the
zero value `nil` when the key is absent (also on a nil map). -/
def JSONObject.index (m : JSONObject) (key : String) : JSONValue :=
  match m.lookup key with
  | some v => v
  | none => JSONValue.null

/-- Type assertion `v.([]interface{})`: `none` when the dynamic type differs. -/
def JSONValue.assertSlice : JSONValue → Option (List JSONValue)
  | .arr elems => some elems
  | _ => none

/-- Type assertion `v.(map[string]interface{})`: `none` when the dynamic type differs. -/
def JSONValue.assertMap : JSONValue → Option JSONObject
  | .obj fields => some fields
  | _ => none

/-- Type assertion `v.(string)`: `none` when the dynamic type differs. -/
def JSONValue.assertString : JSONValue → Option String
  | .str s => some s
  | _ => none

/-- Go `strings.HasPrefix(s, pre)`. -/
def HasPrefix (s pre : String) : Bool :=
  pre.data.isPrefixOf s.data

/-- Go `strings.TrimPrefix(s, pre)`: `s` without the leading `pre` when it has it,
`s` itself otherwise. -/
def TrimPrefix (s pre : String) : String :=
  if HasPrefix s pre then String.mk (s.data.drop pre.data.length) else s

/-! ## Requests, responses, environment -/

/-- One element of the `messages` array of the request body. -/
structure ChatMessage where
  role : String
  content : String
deriving DecidableEq, Repr

/-- The `body` map built by `callGroq` (keys `model` and `messages`). -/
structure ChatBody where
  model : String
  messages : List ChatMessage
deriving DecidableEq, Repr

/-- The fields of `http.Request` that `callGroq` sets. -/
structure Request where
  Method : String
  URL : String
  Header : List (String × String)
  Body : String
deriving DecidableEq, Repr

/-- Go `req.Header.Set(key, value)`: replaces whatever the key held. -/
def Request.setHeader (req : Request) (key value : String) : Request :=
  { req with Header := (key, value) :: req.Header.filter (fun kv => kv.1 != key) }

/-- An `http.Response`: its status code, and what `io.ReadAll(resp.Body)` yields (the
bytes of the body, or a read error). -/
structure Response where
  StatusCode : Nat
  Body : Except Unit String

/-- The library calls `callGroq` depends on. -/
structure Env where
  /-- Go `os.Getenv`. -/
  getenv : String → String
  /-- Go `json.Marshal` on the request body. -/
  jsonMarshal : ChatBody → Except Unit String
  /-- Go `http.NewRequestWithContext(ctx, method, url, body)`. -/
  newRequest : String → String → String → Except Unit Request
  /-- Go `client.Do(req)`, timeout included. -/
  clientDo : Request → Except Unit Response
  /-- Go `json.Unmarshal(bytes, &result)` with `result` a nil `map[string]interface{}`. -/
  jsonUnmarshal : String → Except Unit JSONObject

/-- What the program does to the outside, in order. -/
inductive Event where
  | callGroq (prompt : String)
  | httpDo (req : Request)
  | channelMessageSend (channelID content : String)
deriving DecidableEq, Repr

/-- How a Go function ends: it returns a value, or a run-time panic unwinds it. -/
inductive Outcome (α : Type) where
  | returned (value : α)
  | panicked
deriving DecidableEq, Repr

/-- A run of a function: the events it caused and how it ended. -/
structure Run (α : Type) where
  trace : List Event
  outcome : Outcome α
deriving DecidableEq, Repr

/-- The texts sent with `ChannelMessageSend`, each with its channel, in order. -/
def sentMessages : List Event → List (String × String)
  | [] => []
  | .channelMessageSend ch text :: es => (ch, text) :: sentMessages es
  | _ :: es => sentMessages es

/-- The prompts `callGroq` was called with, in order. -/
def groqCalls : List Event → List String
  | [] => []
  | .callGroq p :: es => p :: groqCalls es
  | _ :: es => groqCalls es

/-- The requests handed to the HTTP transport, in order. -/
def httpCalls : List Event → List Request
  | [] => []
  | .httpDo r :: es => r :: httpCalls es
  | _ :: es => httpCalls es

/-! ## The program -/

/-- The `discordgo.User` field read by the handler. -/
structure User where
  Bot : Bool
deriving DecidableEq, Repr

/-- The `discordgo.MessageCreate` fields read by the handler. -/
structure MessageCreate where
  Author : User
  ChannelID : String
  Content : String
deriving DecidableEq, Repr

def errKeyNotSet : String := "❌ GROQ_API_KEY is not set in .env"
def errEncode : String := "❌ Failed to encode request"
def errCreateRequest : String := "❌ Failed to create Groq API request"
def errContact : String := "❌ Error contacting Groq API"
def errRead : String := "❌ Failed to read Groq response"
def errParse : String := "❌ Failed to parse Groq response"
def errNoResponse : String := "❌ No response from Groq model"
def errMissingContent : String := "❌ Groq response missing content"

def groqURL : String := "https://api.groq.com/openai/v1/chat/completions"

/-- The `body` map of `callGroq` for a prompt (main.go lines 94-102). -/
def chatBody (prompt : String) : ChatBody :=
  { model := "llama3-70b-8192", messages := [{ role := "user", content := prompt }] }

/-- The function `callGroq` of main.go (lines 85-144). The assertions on `choices`
and on `content` are of the comma-ok kind; the two assertions to
`map[string]interface{}` between them (line 138) are single-value ones and panic
when they fail. -/
def callGroq (env : Env) (prompt : String) : Run String :=
  let apiKey := env.getenv "GROQ_API_KEY"
  if apiKey = "" then
    ⟨[], .returned errKeyNotSet⟩
  else
    match env.jsonMarshal (chatBody prompt) with
    | .error _ => ⟨[], .returned errEncode⟩
    | .ok jsonData =>
      match env.newRequest "POST" groqURL jsonData with
      | .error _ => ⟨[], .returned errCreateRequest⟩
      | .ok req0 =>
        let req := (req0.setHeader "Authorization" ("Bearer " ++ apiKey)).setHeader
          "Content-Type" "application/json"
        match env.clientDo req with
        | .error _ => ⟨[.httpDo req], .returned errContact⟩
        | .ok resp =>
          match resp.Body with
          | .error _ => ⟨[.httpDo req], .returned errRead⟩
          | .ok bodyBytes =>
            match env.jsonUnmarshal bodyBytes with
            | .error _ => ⟨[.httpDo req], .returned errParse⟩
            | .ok result =>
              match (result.index "choices").assertSlice with
              | none => ⟨[.httpDo req], .returned errNoResponse⟩
              | some [] => ⟨[.httpDo req], .returned errNoResponse⟩
              | some (first :: _) =>
                match first.assertMap with
                | none => ⟨[.httpDo req], .panicked⟩
                | some choice =>
                  match (choice.index "message").assertMap with
                  | none => ⟨[.httpDo req], .panicked⟩
                  | some message =>
                    match (message.index "content").assertString with
                    | none => ⟨[.httpDo req], .returned errMissingContent⟩
                    | some content => ⟨[.httpDo req], .returned content⟩

/-- The function `messageHandler` of main.go (lines 56-83). The switch leaves the
prompt of its first matching case, or returns in the default case. A panic inside
`callGroq` unwinds the handler before `ChannelMessageSend` is reached. -/
def messageHandler (env : Env) (m : MessageCreate) : Run Unit :=
  if m.Author.Bot then
    ⟨[], .returned ()⟩
  else
    let content := m.Content
    let switch : Option String :=
      if HasPrefix content "/summarize" then
        some ("Summarize this:\n" ++ TrimPrefix content "/summarize ")
      else if HasPrefix content "/explain" then
        some ("Explain this:\n" ++ TrimPrefix content "/explain ")
      else if HasPrefix content "/translate" then
        some ("Translate this to English:\n" ++ TrimPrefix content "/translate ")
      else
        none
    match switch with
    | none => ⟨[], .returned ()⟩
    | some prompt =>
      let r := callGroq env prompt
      match r.outcome with
      | .panicked => ⟨.callGroq prompt :: r.trace, .panicked⟩
      | .returned response =>
        ⟨.callGroq prompt :: (r.trace ++ [.channelMessageSend m.ChannelID response]),
          .returned ()⟩

/-- The response `client.Do` hands to `callGroq` for a prompt: `some` exactly when
the API key is set and encoding, request creation and the transport all succeed. -/
def deliveredResponse (env : Env) (prompt : String) : Option Response :=
  if env.getenv "GROQ_API_KEY" = "" then none
  else
    match env.jsonMarshal (chatBody prompt) with
    | .error _ => none
    | .ok jsonData =>
      match env.newRequest "POST" groqURL jsonData with
      | .error _ => none
      | .ok req0 =>
        match env.clientDo ((req0.setHeader "Authorization"
            ("Bearer " ++ env.getenv "GROQ_API_KEY")).setHeader
            "Content-Type" "application/json") with
        | .error _ => none
        | .ok resp => some resp

/-- The body bytes `callGroq` reads for a prompt: `some` exactly when a response is
delivered and `io.ReadAll` succeeds on its body. -/
def deliveredBody (env : Env) (prompt : String) : Option String :=
  match deliveredResponse env prompt with
  | none => none
  | some resp =>
    match resp.Body with
    | .error _ => none
    | .ok bodyBytes => some bodyBytes

/-! ## The two nested pieces of the program, on their own -/

/-- The walk down `choices[0].message.content` of `callGroq` (lines 133-143), on its
own: what `callGroq` ends with once the body is decoded. -/
def extractContent (result : JSONObject) : Outcome String :=
  match (result.index "choices").assertSlice with
  | none => .returned errNoResponse
  | some [] => .returned errNoResponse
  | some (first :: _) =>
    match first.assertMap with
    | none => .panicked
    | some choice =>
      match (choice.index "message").assertMap with
      | none => .panicked
      | some message =>
        match (message.index "content").assertString with
        | none => .returned errMissingContent
        | some content => .returned content

/-- The switch of `messageHandler` (lines 64-79), on its own. -/
def switchPrompt (content : String) : Option String :=
  if HasPrefix content "/summarize" then
    some ("Summarize this:\n" ++ TrimPrefix content "/summarize ")
  else if HasPrefix content "/explain" then
    some ("Explain this:\n" ++ TrimPrefix content "/explain ")
  else if HasPrefix content "/translate" then
    some ("Translate this to English:\n" ++ TrimPrefix content "/translate ")
  else
    none

/-! ## A concrete environment

A reading of `encoding/json` for the two calls the program makes (decoding into a
`map[string]interface{}` with its `float64` range check and nesting limit), and an
`Env` built from it whose transport answers every request with one fixed response. The theorems
on `callGroq` and `messageHandler` hold for every `Env`; this one serves to run the
program on concrete response bodies. -/

namespace JSON

def quote : Char := Char.ofNat 34
def backslash : Char := Char.ofNat 92
def lbrace : Char := Char.ofNat 123
def rbrace : Char := Char.ofNat 125

/-- JSON white space: space, tab, line feed, carriage return. -/
def isSpace (c : Char) : Bool :=
  c.toNat = 32 || c.toNat = 9 || c.toNat = 10 || c.toNat = 13

def skipSpace : List Char → List Char
  | [] => []
  | c :: cs => if isSpace c then skipSpace cs else c :: cs

def isDigit (c : Char) : Bool := 48 ≤ c.toNat && c.toNat ≤ 57

def hexVal (c : Char) : Option Nat :=
  let n := c.toNat
  if 48 ≤ n && n ≤ 57 then some (n - 48)
  else if 97 ≤ n && n ≤ 102 then some (n - 87)
  else if 65 ≤ n && n ≤ 70 then some (n - 55)
  else none

/-- Four hexadecimal digits as a number. -/
def hex4 (a b c d : Char) : Option Nat :=
  match hexVal a, hexVal b, hexVal c, hexVal d with
  | some w, some x, some y, some z => some (((w * 16 + x) * 16 + y) * 16 + z)
  | _, _, _, _ => none

/-- The low half of a surrogate pair at the head of the input, with the rest. -/
def lowSurrogate : List Char → Option (Nat × List Char)
  | e :: u :: a :: b :: c :: d :: rest =>
    if e = backslash ∧ u = Char.ofNat 117 then
      match hex4 a b c d with
      | some lo => if 56320 ≤ lo ∧ lo < 57344 then some (lo, rest) else none
      | none => none
    else none
  | _ => none

/-- The text of a string literal after its opening quote, escapes decoded; an
unpaired surrogate escape becomes U+FFFD. The fuel bounds the characters read. -/
def parseString : Nat → List Char → List Char → Option (String × List Char)
  | 0, _, _ => none
  | _, [], _ => none
  | n + 1, c :: cs, acc =>
    if c = quote then some (String.mk acc.reverse, cs)
    else if c = backslash then
      match cs with
      | [] => none
      | e :: cs1 =>
        if e = quote ∨ e = backslash ∨ e = Char.ofNat 47 then parseString n cs1 (e :: acc)
        else if e = Char.ofNat 98 then parseString n cs1 (Char.ofNat 8 :: acc)
        else if e = Char.ofNat 102 then parseString n cs1 (Char.ofNat 12 :: acc)
        else if e = Char.ofNat 110 then parseString n cs1 (Char.ofNat 10 :: acc)
        else if e = Char.ofNat 114 then parseString n cs1 (Char.ofNat 13 :: acc)
        else if e = Char.ofNat 116 then parseString n cs1 (Char.ofNat 9 :: acc)
        else if e = Char.ofNat 117 then
          match cs1 with
          | a :: b :: c :: d :: cs2 =>
            match hex4 a b c d with
            | none => none
            | some hi =>
              if 55296 ≤ hi ∧ hi < 56320 then
                match lowSurrogate cs2 with
                | some (lo, cs3) =>
                  parseString n cs3
                    (Char.ofNat (65536 + (hi - 55296) * 1024 + (lo - 56320)) :: acc)
                | none => parseString n cs2 (Char.ofNat 65533 :: acc)
              else if 56320 ≤ hi ∧ hi < 57344 then
                parseString n cs2 (Char.ofNat 65533 :: acc)
              else parseString n cs2 (Char.ofNat hi :: acc)
          | _ => none
        else none
    else if c.toNat < 32 then none
    else parseString n cs (c :: acc)

/-- The longest run of digits at the head of the input, and the rest. -/
def spanDigits : List Char → List Char × List Char
  | [] => ([], [])
  | c :: cs =>
    if isDigit c then ((spanDigits cs).1.cons c, (spanDigits cs).2) else ([], c :: cs)

/-- A number literal: `-? (0 | [1-9][0-9]*) (. [0-9]+)? ([eE] [+-]? [0-9]+)?`. It
yields the literal's text and the rest of the input. -/
def parseNumber (cs : List Char) : Option (String × List Char) :=
  let (sign, r0) : List Char × List Char :=
    match cs with
    | c :: r => if c = Char.ofNat 45 then ([c], r) else ([], cs)
    | [] => ([], [])
  let (intPart, r1) := spanDigits r0
  if intPart = [] ∨ (intPart.head? = some (Char.ofNat 48) ∧ intPart.length ≠ 1) then none
  else
    let fracResult : Option (List Char × List Char) :=
      match r1 with
      | c :: r =>
        if c = Char.ofNat 46 then
          let (ds, r2) := spanDigits r
          if ds = [] then none else some (c :: ds, r2)
        else some ([], r1)
      | [] => some ([], [])
    match fracResult with
    | none => none
    | some (frac, r2) =>
      let expResult : Option (List Char × List Char) :=
        match r2 with
        | c :: r =>
          if c = Char.ofNat 101 ∨ c = Char.ofNat 69 then
            let (sg, r3) : List Char × List Char :=
              match r with
              | s :: t => if s = Char.ofNat 43 ∨ s = Char.ofNat 45 then ([s], t) else ([], r)
              | [] => ([], [])
            let (ds, r4) := spanDigits r3
            if ds = [] then none else some (c :: (sg ++ ds), r4)
          else some ([], r2)
        | [] => some ([], [])
      match expResult with
      | none => none
      | some (ex, r3) => some (String.mk (sign ++ intPart ++ frac ++ ex), r3)

/-- Removes a leading keyword from the input. -/
def dropWord (word : String) (cs : List Char) : Option (List Char) :=
  if word.data.isPrefixOf cs then some (cs.drop word.data.length) else none

/-- Go map assignment `m[key] = v`: a repeated key keeps its last value. -/
def mapSet (m : JSONObject) (key : String) (v : JSONValue) : JSONObject :=
  (key, v) :: m.filter (fun kv => kv.1 != key)

/-- The number a run of decimal digits writes. -/
def digitsToNat (ds : List Char) : Nat :=
  ds.foldl (fun n c => 10 * n + (c.toNat - 48)) 0

/-- The powers of ten. -/
def pow10 : Nat → Nat
  | 0 => 1
  | n + 1 => 10 * pow10 n

/-- The least magnitude that `float64` cannot hold: `2^1024 - 2^970`, half a unit in
the last place above the largest `float64`. `strconv.ParseFloat` reports a range error
from here on. -/
def float64Limit : Nat :=
  179769313486231580793728971405303415079934132710037826936173778980444968292764750946649017977587207096330286416692887910946555547851940402630657488671505820681908902000708383676273854845817711531764475730270069855571366959622842914819860834936475292719074168444365510704342711559699508093042880177904174497792

/-- Whether a number literal (as `parseNumber` yields it) is beyond the range of
`float64`, where `strconv.ParseFloat(lit, 64)` fails and `json.Unmarshal` with it. With
`m` the digits of the integer and fraction parts read as one number, `f` the count of
fraction digits and `e` the exponent, the value is `m * 10^(e - f)`. -/
def overflowsFloat64 (lit : List Char) : Bool :=
  let r0 : List Char :=
    match lit with
    | c :: r => if c = Char.ofNat 45 then r else lit
    | [] => []
  let (intPart, r1) := spanDigits r0
  let (frac, r2) : List Char × List Char :=
    match r1 with
    | c :: r => if c = Char.ofNat 46 then spanDigits r else ([], r1)
    | [] => ([], [])
  let (expNegative, expDigits) : Bool × List Char :=
    match r2 with
    | _ :: s :: t =>
      if s = Char.ofNat 45 then (true, t)
      else if s = Char.ofNat 43 then (false, t)
      else (false, s :: t)
    | _ => (false, [])
  let m := digitsToNat (intPart ++ frac)
  let e := digitsToNat expDigits
  if m = 0 then false
  else if expNegative then
    if (intPart ++ frac).length < e + frac.length then false
    else Nat.ble (float64Limit * pow10 (e + frac.length)) m
  else if frac.length ≤ e then
    if 309 < e - frac.length then true
    else Nat.ble float64Limit (m * pow10 (e - frac.length))
  else Nat.ble (float64Limit * pow10 (frac.length - e)) m

/-- The nesting of arrays and objects that `encoding/json` accepts. -/
def maxNestingDepth : Nat := 10000

mutual
/-- One JSON value at the head of the input (white space before it skipped), and the
rest of the input. With `goLimits` set the two limits of `encoding/json` apply: a
number beyond `float64` and a nesting deeper than `maxNestingDepth` are refused.
Without it this is the JSON grammar alone. The fuel bounds the depth of the calls;
`depth` counts the arrays and objects open around the value. -/
def parseValue (goLimits : Bool) : Nat → Nat → List Char → Option (JSONValue × List Char)
  | 0, _, _ => none
  | n + 1, depth, cs =>
    match skipSpace cs with
    | [] => none
    | c :: r =>
      if c = lbrace then
        if goLimits && Nat.ble maxNestingDepth depth then none
        else
          match skipSpace r with
          | d :: r1 =>
            if d = rbrace then some (.obj [], r1)
            else parseMembers goLimits n (depth + 1) (d :: r1) []
          | [] => none
      else if c = Char.ofNat 91 then
        if goLimits && Nat.ble maxNestingDepth depth then none
        else
          match skipSpace r with
          | d :: r1 =>
            if d = Char.ofNat 93 then some (.arr [], r1)
            else parseElems goLimits n (depth + 1) (d :: r1) []
          | [] => none
      else if c = quote then
        match parseString (r.length + 1) r [] with
        | some (s, r1) => some (.str s, r1)
        | none => none
      else if c = Char.ofNat 116 then (dropWord "true" (c :: r)).map (fun r1 => (.bool true, r1))
      else if c = Char.ofNat 102 then
        (dropWord "false" (c :: r)).map (fun r1 => (.bool false, r1))
      else if c = Char.ofNat 110 then (dropWord "null" (c :: r)).map (fun r1 => (.null, r1))
      else
        match parseNumber (c :: r) with
        | some (lit, r1) =>
          if goLimits && overflowsFloat64 lit.data then none else some (.number lit, r1)
        | none => none
/-- The elements of an array after the first bracket, up to the closing bracket. -/
def parseElems (goLimits : Bool) :
    Nat → Nat → List Char → List JSONValue → Option (JSONValue × List Char)
  | 0, _, _, _ => none
  | n + 1, depth, cs, acc =>
    match parseValue goLimits n depth cs with
    | none => none
    | some (v, r) =>
      match skipSpace r with
      | c :: r1 =>
        if c = Char.ofNat 44 then parseElems goLimits n depth r1 (acc ++ [v])
        else if c = Char.ofNat 93 then some (.arr (acc ++ [v]), r1)
        else none
      | [] => none
/-- The members of an object after the opening brace, up to the closing brace. -/
def parseMembers (goLimits : Bool) :
    Nat → Nat → List Char → JSONObject → Option (JSONValue × List Char)
  | 0, _, _, _ => none
  | n + 1, depth, cs, acc =>
    match skipSpace cs with
    | q :: r =>
      if q = quote then
        match parseString (r.length + 1) r [] with
        | none => none
        | some (key, r1) =>
          match skipSpace r1 with
          | c :: r2 =>
            if c = Char.ofNat 58 then
              match parseValue goLimits n depth r2 with
              | none => none
              | some (v, r3) =>
                match skipSpace r3 with
                | d :: r4 =>
                  if d = Char.ofNat 44 then parseMembers goLimits n depth r4 (mapSet acc key v)
                  else if d = rbrace then some (.obj (mapSet acc key v), r4)
                  else none
                | [] => none
            else none
          | [] => none
      else none
    | [] => none
end

/-- The value a whole text denotes by the JSON grammar (RFC 8259), `none` when the
text is not JSON. No limit of `encoding/json` applies. -/
def parseText (body : String) : Option JSONValue :=
  match parseValue false (2 * body.data.length + 2) 0 body.data with
  | none => none
  | some (v, rest) => if skipSpace rest = [] then some v else none

/-- Go `json.Unmarshal(body, &result)` for a nil `result map[string]interface{}`: a
JSON object fills the map, the literal `null` leaves it nil, anything else is an
error: another kind of value, text that is not JSON, text after the value, a number
anywhere in it beyond the range of `float64`, a nesting deeper than 10000. -/
def Unmarshal (body : String) : Except Unit JSONObject :=
  match parseValue true (2 * body.data.length + 2) 0 body.data with
  | none => .error ()
  | some (v, rest) =>
    if skipSpace rest = [] then
      match v with
      | .obj fields => .ok fields
      | .null => .ok []
      | _ => .error ()
    else .error ()

/-- The JSON object a text denotes by the grammar alone, `none` when the text is not
a JSON object. -/
def objectOf (body : String) : Option JSONObject :=
  match parseText body with
  | some (.obj fields) => some fields
  | _ => none

/-- The string at `choices[0].message.content` of the JSON object a text denotes:
`some t` exactly when the text is a JSON object in which `choices` is a non-empty
array whose first element is an object with a `message` object whose `content` is
the string `t`. -/
def contentOfBody (body : String) : Option String :=
  match objectOf body with
  | none => none
  | some fields =>
    match fields.index "choices" with
    | .arr (.obj choice :: _) =>
      match JSONObject.index choice "message" with
      | .obj message =>
        match JSONObject.index message "content" with
        | .str t => some t
        | _ => none
      | _ => none
    | _ => none

/-- The length of the array `choices` of the JSON object a text denotes, `none` when
the text is not a JSON object or has no array under `choices`. -/
def choicesLengthOfBody (body : String) : Option Nat :=
  match objectOf body with
  | none => none
  | some fields =>
    match fields.index "choices" with
    | .arr elems => some elems.length
    | _ => none

/-- Whether a text is a JSON object with no member `choices`. -/
def bodyLacksChoices (body : String) : Bool :=
  match objectOf body with
  | none => false
  | some fields => (fields.lookup "choices").isNone

def hexDigit (n : Nat) : Char :=
  if n < 10 then Char.ofNat (48 + n) else Char.ofNat (87 + n)

/-- The escape of one character inside a string literal, as `json.Marshal` of Go 1.22
and later writes it: the quote, the backslash, backspace, form feed, line feed,
carriage return and tab in their short form, the other control characters and `<`,
`>`, `&`, U+2028, U+2029 as `\u` escapes. -/
def escapeChar (c : Char) : List Char :=
  let n := c.toNat
  if c = quote ∨ c = backslash then [backslash, c]
  else if n = 8 then [backslash, Char.ofNat 98]
  else if n = 12 then [backslash, Char.ofNat 102]
  else if n = 10 then [backslash, Char.ofNat 110]
  else if n = 13 then [backslash, Char.ofNat 114]
  else if n = 9 then [backslash, Char.ofNat 116]
  else if n < 32 ∨ n = 60 ∨ n = 62 ∨ n = 38 ∨ n = 8232 ∨ n = 8233 then
    [backslash, Char.ofNat 117, hexDigit (n / 4096), hexDigit (n / 256 % 16),
      hexDigit (n / 16 % 16), hexDigit (n % 16)]
  else [c]

/-- A string literal for a text. -/
def encodeString (s : String) : String :=
  String.mk ([quote] ++ (s.data.map escapeChar).flatten ++ [quote])

def encodeMessage (m : ChatMessage) : String :=
  String.mk [lbrace] ++ "\"content\":" ++ encodeString m.content ++ ",\"role\":" ++
    encodeString m.role ++ String.mk [rbrace]

/-- Go `json.Marshal` on the request body of `callGroq`: map keys in sorted order. It
does not fail on these values. -/
def Marshal (b : ChatBody) : Except Unit String :=
  .ok (String.mk [lbrace] ++ "\"messages\":[" ++
    ",".intercalate (b.messages.map encodeMessage) ++ "],\"model\":" ++
    encodeString b.model ++ String.mk [rbrace])

end JSON

/-- Go `http.NewRequestWithContext` for a valid method and URL: a request with no
header yet. -/
def NewRequest (method url body : String) : Except Unit Request :=
  .ok { Method := method, URL := url, Header := [], Body := body }

/-- A process whose `GROQ_API_KEY` is `apiKey` and whose transport gives `answer` to
every request. -/
def fixedEnv (apiKey : String) (answer : Except Unit Response) : Env :=
  { getenv := fun name => if name = "GROQ_API_KEY" then apiKey else ""
    jsonMarshal := JSON.Marshal
    newRequest := NewRequest
    clientDo := fun _ => answer
    jsonUnmarshal := JSON.Unmarshal }

/-- The environment `fixedEnv` with a transport that answers with a status code and
a readable body. -/
def bodyEnv (apiKey : String) (status : Nat) (body : String) : Env :=
  fixedEnv apiKey (.ok { StatusCode := status, Body := .ok body })

/-! ## Sample inputs -/

/-- A sample message from a human author. -/
def humanMessage (content : String) : MessageCreate :=
  { Author := { Bot := false }, ChannelID := "channel-1", Content := content }

/-- A sample message from a bot account. -/
def botMessage (content : String) : MessageCreate :=
  { Author := { Bot := true }, ChannelID := "channel-1", Content := content }

def bodyHiThere : String :=
  "\x7b\"choices\":[\x7b\"message\":\x7b\"content\":\"Hi there\"\x7d\x7d]\x7d"

def bodyNoChoices : String := "\x7b\"choices\":[]\x7d"

def bodyChoiceNotObject : String := "\x7b\"choices\":[1]\x7d"

def bodyChoiceWithoutMessage : String := "\x7b\"choices\":[\x7b\x7d]\x7d"

def bodyMessageNotObject : String := "\x7b\"choices\":[\x7b\"message\":\"Hi there\"\x7d]\x7d"

def bodyApiError : String :=
  "\x7b\"error\":\x7b\"message\":\"Invalid API Key\",\"type\":\"invalid_request_error\"\x7d\x7d"

/-- A body with a well-formed `choices[0].message.content` next to a number beyond
`float64`. -/
def bodyContentOutOfRange : String :=
  "\x7b\"choices\":[\x7b\"message\":\x7b\"content\":\"ok\"\x7d\x7d],\"usage\":1e999\x7d"

/-- A body with an empty `choices` next to a number beyond `float64`. -/
def bodyNoChoicesOutOfRange : String := "\x7b\"choices\":[],\"n\":1e999\x7d"

/-- An API error object, without `choices`, holding a number beyond `float64`. -/
def bodyApiErrorOutOfRange : String :=
  "\x7b\"error\":\x7b\"message\":\"Invalid API Key\"\x7d,\"code\":1e999\x7d"

/-! ## Auxiliary facts -/

theorem callGroq_trace_cases (env : Env) (prompt : String) :
    (callGroq env prompt).trace = [] ∨ ∃ req, (callGroq env prompt).trace = [.httpDo req] := by
  unfold callGroq
  simp only
  repeat' split
  all_goals first
    | exact Or.inl rfl
    | exact Or.inr ⟨_, rfl⟩

theorem callGroq_no_groqCalls (env : Env) (prompt : String) :
    groqCalls (callGroq env prompt).trace = [] := by
  rcases callGroq_trace_cases env prompt with h | ⟨req, h⟩ <;> rw [h] <;> rfl

theorem callGroq_no_sentMessages (env : Env) (prompt : String) :
    sentMessages (callGroq env prompt).trace = [] := by
  rcases callGroq_trace_cases env prompt with h | ⟨req, h⟩ <;> rw [h] <;> rfl

theorem groqCalls_append (xs ys : List Event) :
    groqCalls (xs ++ ys) = groqCalls xs ++ groqCalls ys := by
  induction xs with
  | nil => rfl
  | cons e es ih => cases e <;> simp [groqCalls, ih]

theorem sentMessages_append (xs ys : List Event) :
    sentMessages (xs ++ ys) = sentMessages xs ++ sentMessages ys := by
  induction xs with
  | nil => rfl
  | cons e es ih => cases e <;> simp [sentMessages, ih]

theorem messageHandler_bot (env : Env) (m : MessageCreate) (h : m.Author.Bot = true) :
    messageHandler env m = ⟨[], .returned ()⟩ := by
  simp [messageHandler, h]

theorem messageHandler_unmatched (env : Env) (m : MessageCreate)
    (h : switchPrompt m.Content = none) : messageHandler env m = ⟨[], .returned ()⟩ := by
  unfold messageHandler
  split
  · rfl
  · simp only
    have h2 := h
    unfold switchPrompt at h2
    rw [h2]

theorem messageHandler_matched (env : Env) (m : MessageCreate) (prompt : String)
    (hbot : m.Author.Bot = false) (h : switchPrompt m.Content = some prompt) :
    messageHandler env m =
      match (callGroq env prompt).outcome with
      | .panicked => ⟨.callGroq prompt :: (callGroq env prompt).trace, .panicked⟩
      | .returned response =>
        ⟨.callGroq prompt ::
            ((callGroq env prompt).trace ++ [.channelMessageSend m.ChannelID response]),
          .returned ()⟩ := by
  unfold messageHandler
  simp only [hbot, Bool.false_eq_true, if_false]
  have h2 := h
  unfold switchPrompt at h2
  rw [h2]

theorem groqCalls_matched (env : Env) (m : MessageCreate) (prompt : String)
    (hbot : m.Author.Bot = false) (h : switchPrompt m.Content = some prompt) :
    groqCalls (messageHandler env m).trace = [prompt] := by
  rw [messageHandler_matched env m prompt hbot h]
  split <;> simp [groqCalls, groqCalls_append, callGroq_no_groqCalls]

theorem sentMessages_matched_returned (env : Env) (m : MessageCreate) (prompt r : String)
    (hbot : m.Author.Bot = false) (h : switchPrompt m.Content = some prompt)
    (hr : (callGroq env prompt).outcome = .returned r) :
    sentMessages (messageHandler env m).trace = [(m.ChannelID, r)] := by
  rw [messageHandler_matched env m prompt hbot h, hr]
  simp [sentMessages, sentMessages_append, callGroq_no_sentMessages]

theorem callGroq_outcome_of_delivered (env : Env) (prompt : String) (resp : Response)
    (body : String) (result : JSONObject)
    (hdel : deliveredResponse env prompt = some resp) (hbody : resp.Body = .ok body)
    (hparse : env.jsonUnmarshal body = .ok result) :
    (callGroq env prompt).outcome = extractContent result := by
  unfold deliveredResponse at hdel
  unfold callGroq extractContent
  simp only
  split at hdel
  · exact absurd hdel (by simp)
  · rename_i hkey
    rw [if_neg hkey]
    split at hdel
    · exact absurd hdel (by simp)
    · split at hdel
      · exact absurd hdel (by simp)
      · split at hdel
        · exact absurd hdel (by simp)
        · rename_i r hdo
          simp only [Option.some.injEq] at hdel
          subst hdel
          simp only [hdo, hbody, hparse]
          repeat' split
          all_goals rfl

theorem switchPrompt_summarize (a : String) :
    switchPrompt ("/summarize " ++ a) = some ("Summarize this:\n" ++ a) := by
  obtain ⟨l⟩ := a
  simp [switchPrompt, TrimPrefix, HasPrefix]

theorem switchPrompt_explain (a : String) :
    switchPrompt ("/explain " ++ a) = some ("Explain this:\n" ++ a) := by
  obtain ⟨l⟩ := a
  simp [switchPrompt, TrimPrefix, HasPrefix]

theorem switchPrompt_translate (a : String) :
    switchPrompt ("/translate " ++ a) = some ("Translate this to English:\n" ++ a) := by
  obtain ⟨l⟩ := a
  simp [switchPrompt, TrimPrefix, HasPrefix]

theorem switchPrompt_none (content : String)
    (h1 : HasPrefix content "/summarize" = false) (h2 : HasPrefix content "/explain" = false)
    (h3 : HasPrefix content "/translate" = false) : switchPrompt content = none := by
  simp [switchPrompt, h1, h2, h3]

theorem switchPrompt_some_of_recognized (content : String)
    (h : HasPrefix content "/summarize" = true ∨ HasPrefix content "/explain" = true ∨
      HasPrefix content "/translate" = true) : ∃ p, switchPrompt content = some p := by
  unfold switchPrompt
  split
  · exact ⟨_, rfl⟩
  · split
    · exact ⟨_, rfl⟩
    · split
      · exact ⟨_, rfl⟩
      · simp_all

theorem switchPrompt_of_groqCalls (env : Env) (m : MessageCreate) (p : String)
    (h : groqCalls (messageHandler env m).trace = [p]) :
    m.Author.Bot = false ∧ switchPrompt m.Content = some p := by
  cases hbot : m.Author.Bot with
  | true => rw [messageHandler_bot env m hbot] at h; simp [groqCalls] at h
  | false =>
    refine ⟨rfl, ?_⟩
    cases hs : switchPrompt m.Content with
    | none => rw [messageHandler_unmatched env m hs] at h; simp [groqCalls] at h
    | some q =>
      rw [groqCalls_matched env m q hbot hs] at h
      simp only [List.cons.injEq, and_true] at h
      rw [h]

theorem callGroq_outcome_of_body (env : Env) (prompt body : String) (result : JSONObject)
    (hdel : deliveredBody env prompt = some body)
    (hparse : env.jsonUnmarshal body = .ok result) :
    (callGroq env prompt).outcome = extractContent result := by
  unfold deliveredBody at hdel
  split at hdel
  · exact absurd hdel (by simp)
  · rename_i resp hresp
    split at hdel
    · exact absurd hdel (by simp)
    · rename_i b hb
      simp only [Option.some.injEq] at hdel
      subst hdel
      exact callGroq_outcome_of_delivered env prompt resp b result hresp hb hparse

theorem extractContent_no_choices (result : JSONObject)
    (h : result.index "choices" = .arr [] ∨ result.lookup "choices" = none ∨
      ∀ elems, result.index "choices" ≠ .arr elems) :
    extractContent result = .returned errNoResponse := by
  unfold extractContent
  rcases h with h | h | h
  · rw [h]; rfl
  · have : result.index "choices" = .null := by
      unfold JSONObject.index
      rw [h]
    rw [this]; rfl
  · cases hc : result.index "choices" with
    | arr elems => exact absurd hc (h elems)
    | _ => rfl

theorem extractContent_content (result choice message : JSONObject) (rest : List JSONValue)
    (t : String) (h1 : result.index "choices" = .arr (.obj choice :: rest))
    (h2 : choice.index "message" = .obj message) (h3 : message.index "content" = .str t) :
    extractContent result = .returned t := by
  unfold extractContent
  rw [h1]
  simp only [JSONValue.assertSlice, JSONValue.assertMap, h2, h3, JSONValue.assertString]

theorem callGroq_transport_bodies (env : Env) (t₁ t₂ : Request → Except Unit Response)
    (hsame : ∀ req, (t₁ req).map Response.Body = (t₂ req).map Response.Body)
    (prompt : String) :
    callGroq { env with clientDo := t₁ } prompt = callGroq { env with clientDo := t₂ } prompt := by
  unfold callGroq
  simp only
  by_cases hkey : env.getenv "GROQ_API_KEY" = ""
  · simp only [hkey, if_true]
  · simp only [hkey, if_false]
    cases hm : env.jsonMarshal (chatBody prompt) with
    | error e => rfl
    | ok jsonData =>
      simp only
      cases hn : env.newRequest "POST" groqURL jsonData with
      | error e => rfl
      | ok req0 =>
        simp only
        have h := hsame ((req0.setHeader "Authorization"
          ("Bearer " ++ env.getenv "GROQ_API_KEY")).setHeader "Content-Type" "application/json")
        cases h1 : t₁ ((req0.setHeader "Authorization"
          ("Bearer " ++ env.getenv "GROQ_API_KEY")).setHeader "Content-Type" "application/json")
          <;> cases h2 : t₂ ((req0.setHeader "Authorization"
            ("Bearer " ++ env.getenv "GROQ_API_KEY")).setHeader "Content-Type"
            "application/json")
          <;> rw [h1, h2] at h
          <;> simp only [Except.map, Except.ok.injEq, reduceCtorEq] at h
        simp only
        rw [h]

/-- What `deliveredBody` being `some` says, step by step: the key is set, encoding and
request creation succeed, the transport answers the request (with its two headers
set), and the body of the answer is read whole. -/
theorem deliveredBody_eq_some_iff (env : Env) (prompt body : String) :
    deliveredBody env prompt = some body ↔
      env.getenv "GROQ_API_KEY" ≠ "" ∧
      ∃ jsonData req0 resp,
        env.jsonMarshal (chatBody prompt) = .ok jsonData ∧
        env.newRequest "POST" groqURL jsonData = .ok req0 ∧
        env.clientDo ((req0.setHeader "Authorization"
          ("Bearer " ++ env.getenv "GROQ_API_KEY")).setHeader "Content-Type"
          "application/json") = .ok resp ∧
        resp.Body = .ok body := by
  unfold deliveredBody deliveredResponse
  by_cases hkey : env.getenv "GROQ_API_KEY" = ""
  · simp [hkey]
  · cases hm : env.jsonMarshal (chatBody prompt) with
    | error e => simp [hkey, hm]
    | ok jsonData =>
      cases hn : env.newRequest "POST" groqURL jsonData with
      | error e => simp [hkey, hm, hn]
      | ok req0 =>
        cases hd : env.clientDo ((req0.setHeader "Authorization"
          ("Bearer " ++ env.getenv "GROQ_API_KEY")).setHeader "Content-Type"
          "application/json") with
        | error e => simp [hkey, hm, hn, hd]
        | ok resp =>
          cases hb : resp.Body with
          | error e => simp [hkey, hm, hn, hd, hb]
          | ok b => simp [hkey, hm, hn, hd, hb]

theorem callGroq_returns_of_not_delivered (env : Env) (prompt : String)
    (h : deliveredBody env prompt = none) :
    ∃ text, (callGroq env prompt).outcome = .returned text := by
  unfold deliveredBody deliveredResponse at h
  unfold callGroq
  by_cases hkey : env.getenv "GROQ_API_KEY" = ""
  · exact ⟨errKeyNotSet, by simp [hkey]⟩
  · cases hm : env.jsonMarshal (chatBody prompt) with
    | error e => exact ⟨errEncode, by simp [hkey, hm]⟩
    | ok jsonData =>
      cases hn : env.newRequest "POST" groqURL jsonData with
      | error e => exact ⟨errCreateRequest, by simp [hkey, hm, hn]⟩
      | ok req0 =>
        cases hd : env.clientDo ((req0.setHeader "Authorization"
          ("Bearer " ++ env.getenv "GROQ_API_KEY")).setHeader "Content-Type"
          "application/json") with
        | error e => exact ⟨errContact, by simp [hkey, hm, hn, hd]⟩
        | ok resp =>
          cases hb : resp.Body with
          | error e => exact ⟨errRead, by simp [hkey, hm, hn, hd, hb]⟩
          | ok b => simp [hkey, hm, hn, hd, hb] at h

theorem callGroq_returns_of_not_decoded (env : Env) (prompt body : String)
    (hdel : deliveredBody env prompt = some body) (e : Unit)
    (hparse : env.jsonUnmarshal body = .error e) :
    (callGroq env prompt).outcome = .returned errParse := by
  obtain ⟨hkey, jsonData, req0, resp, hm, hn, hd, hb⟩ :=
    (deliveredBody_eq_some_iff env prompt body).mp hdel
  unfold callGroq
  simp [hkey, hm, hn, hd, hb, hparse]

theorem extractContent_panicked_iff (result : JSONObject) :
    extractContent result = .panicked ↔
      ∃ first rest, result.index "choices" = .arr (first :: rest) ∧
        ∀ choice message : JSONObject, first = .obj choice → choice.index "message" ≠ .obj message := by
  unfold extractContent
  cases hc : result.index "choices" with
  | arr elems =>
    cases elems with
    | nil => simp [JSONValue.assertSlice]
    | cons first rest =>
      cases first with
      | obj choice =>
        cases hm : JSONObject.index choice "message" with
        | obj message =>
          cases hct : JSONObject.index message "content" <;>
            simp [JSONValue.assertSlice, JSONValue.assertMap, JSONValue.assertString, hm, hct]
        | _ =>
          simp only [JSONValue.assertSlice, JSONValue.assertMap, hm, true_iff]
          refine ⟨_, _, rfl, ?_⟩
          intro c msg hc2 hmsg
          cases hc2
          rw [hm] at hmsg
          cases hmsg
      | _ => simp [JSONValue.assertSlice, JSONValue.assertMap]
  | _ => simp [JSONValue.assertSlice]

/-- When `callGroq` panics rather than returns: exactly when a body is delivered and
decoded, `choices` is a non-empty array, and its first element is not an object with
a `message` that is an object. -/
theorem callGroq_panicked_iff (env : Env) (prompt : String) :
    (callGroq env prompt).outcome = .panicked ↔
      ∃ body result first rest,
        deliveredBody env prompt = some body ∧ env.jsonUnmarshal body = .ok result ∧
        result.index "choices" = .arr (first :: rest) ∧
        ∀ choice message : JSONObject, first = .obj choice → choice.index "message" ≠ .obj message := by
  constructor
  · intro h
    cases hdel : deliveredBody env prompt with
    | none =>
      obtain ⟨text, ht⟩ := callGroq_returns_of_not_delivered env prompt hdel
      rw [ht] at h
      exact absurd h (by simp)
    | some body =>
      cases hparse : env.jsonUnmarshal body with
      | error e =>
        rw [callGroq_returns_of_not_decoded env prompt body hdel e hparse] at h
        exact absurd h (by simp)
      | ok result =>
        rw [callGroq_outcome_of_body env prompt body result hdel hparse] at h
        obtain ⟨first, rest, h1, h2⟩ := (extractContent_panicked_iff result).mp h
        exact ⟨body, result, first, rest, rfl, hparse, h1, h2⟩
  · rintro ⟨body, result, first, rest, hdel, hparse, h1, h2⟩
    rw [callGroq_outcome_of_body env prompt body result hdel hparse]
    exact (extractContent_panicked_iff result).mpr ⟨first, rest, h1, h2⟩

/-! ## The claims -/

/-- C1: for every message whose author is flagged as a bot, whatever its content,
`messageHandler` sends no channel message and does not call `callGroq` (it causes no
event at all and returns). -/
theorem C1_bot_author_no_reply (env : Env) (m : MessageCreate) (hbot : m.Author.Bot = true) :
    sentMessages (messageHandler env m).trace = [] ∧
    groqCalls (messageHandler env m).trace = [] ∧
    messageHandler env m = ⟨[], .returned ()⟩ := by
  rw [messageHandler_bot env m hbot]
  exact ⟨rfl, rfl, rfl⟩

theorem C1_bot_author_no_reply_witness :
    (botMessage "/summarize hello world").Author.Bot = true ∧
    sentMessages (messageHandler (bodyEnv "key" 200 bodyHiThere)
      (botMessage "/summarize hello world")).trace = [] ∧
    groqCalls (messageHandler (bodyEnv "key" 200 bodyHiThere)
      (botMessage "/summarize hello world")).trace = [] :=
  ⟨rfl,
    (C1_bot_author_no_reply (bodyEnv "key" 200 bodyHiThere)
      (botMessage "/summarize hello world") rfl).1,
    (C1_bot_author_no_reply (bodyEnv "key" 200 bodyHiThere)
      (botMessage "/summarize hello world") rfl).2.1⟩

/-- C2: for every message whose content does not start with `/summarize`, `/explain`
or `/translate`, `messageHandler` sends no channel message and does not call
`callGroq`. -/
theorem C2_unrecognized_no_reply (env : Env) (m : MessageCreate)
    (h1 : HasPrefix m.Content "/summarize" = false)
    (h2 : HasPrefix m.Content "/explain" = false)
    (h3 : HasPrefix m.Content "/translate" = false) :
    sentMessages (messageHandler env m).trace = [] ∧
    groqCalls (messageHandler env m).trace = [] ∧
    messageHandler env m = ⟨[], .returned ()⟩ := by
  rw [messageHandler_unmatched env m (switchPrompt_none m.Content h1 h2 h3)]
  exact ⟨rfl, rfl, rfl⟩

theorem C2_unrecognized_no_reply_witness :
    HasPrefix (humanMessage "hello /summarize this").Content "/summarize" = false ∧
    sentMessages (messageHandler (bodyEnv "key" 200 bodyHiThere)
      (humanMessage "hello /summarize this")).trace = [] ∧
    groqCalls (messageHandler (bodyEnv "key" 200 bodyHiThere)
      (humanMessage "hello /summarize this")).trace = [] :=
  ⟨by decide,
    (C2_unrecognized_no_reply (bodyEnv "key" 200 bodyHiThere)
      (humanMessage "hello /summarize this") (by decide) (by decide) (by decide)).1,
    (C2_unrecognized_no_reply (bodyEnv "key" 200 bodyHiThere)
      (humanMessage "hello /summarize this") (by decide) (by decide) (by decide)).2.1⟩

/-- C3: for every argument text `a` and a non-bot author, the prompt `messageHandler`
passes to `callGroq` is exactly `"Summarize this:\n" ++ a` for content
`"/summarize " ++ a`, `"Explain this:\n" ++ a` for content `"/explain " ++ a`, and
`"Translate this to English:\n" ++ a` for content `"/translate " ++ a`. -/
theorem C3_prompt_construction (env : Env) (m : MessageCreate) (a : String)
    (hbot : m.Author.Bot = false) :
    (m.Content = "/summarize " ++ a →
      groqCalls (messageHandler env m).trace = ["Summarize this:\n" ++ a]) ∧
    (m.Content = "/explain " ++ a →
      groqCalls (messageHandler env m).trace = ["Explain this:\n" ++ a]) ∧
    (m.Content = "/translate " ++ a →
      groqCalls (messageHandler env m).trace = ["Translate this to English:\n" ++ a]) := by
  refine ⟨fun h => ?_, fun h => ?_, fun h => ?_⟩
  · exact groqCalls_matched env m _ hbot (by rw [h]; exact switchPrompt_summarize a)
  · exact groqCalls_matched env m _ hbot (by rw [h]; exact switchPrompt_explain a)
  · exact groqCalls_matched env m _ hbot (by rw [h]; exact switchPrompt_translate a)

theorem C3_prompt_construction_witness :
    groqCalls (messageHandler (bodyEnv "key" 200 bodyHiThere)
      (humanMessage "/summarize hello world")).trace = ["Summarize this:\nhello world"] ∧
    groqCalls (messageHandler (bodyEnv "key" 200 bodyHiThere)
      (humanMessage "/explain foo")).trace = ["Explain this:\nfoo"] ∧
    groqCalls (messageHandler (bodyEnv "key" 200 bodyHiThere)
      (humanMessage "/translate bonjour")).trace = ["Translate this to English:\nbonjour"] :=
  ⟨(C3_prompt_construction (bodyEnv "key" 200 bodyHiThere)
      (humanMessage "/summarize hello world") "hello world" rfl).1 rfl,
    (C3_prompt_construction (bodyEnv "key" 200 bodyHiThere)
      (humanMessage "/explain foo") "foo" rfl).2.1 rfl,
    (C3_prompt_construction (bodyEnv "key" 200 bodyHiThere)
      (humanMessage "/translate bonjour") "bonjour" rfl).2.2 rfl⟩

/-- What the code does where C4 fails: for a non-bot message whose content starts with
`/summarize` and does not go on with a space, nothing is stripped and the whole
content, command word included, follows the directive line. -/
theorem summarize_without_space_keeps_content (env : Env) (m : MessageCreate)
    (hbot : m.Author.Bot = false) (hcmd : HasPrefix m.Content "/summarize" = true)
    (hspace : HasPrefix m.Content "/summarize " = false) :
    groqCalls (messageHandler env m).trace = ["Summarize this:\n" ++ m.Content] := by
  apply groqCalls_matched env m _ hbot
  simp [switchPrompt, TrimPrefix, hcmd, hspace]

/-- C4 (the code at the failing inputs): for a non-bot message whose content is exactly
`/summarize`, the argument after the directive line is `/summarize`, not the empty
text, and for content `/summarizeXYZ` it is `/summarizeXYZ`, not `XYZ`; the same for
`/explain` and `/translate` alone. -/
theorem C4_prefix_without_space_not_stripped (env : Env) :
    groqCalls (messageHandler env (humanMessage "/summarize")).trace
      = ["Summarize this:\n/summarize"] ∧
    groqCalls (messageHandler env (humanMessage "/summarizeXYZ")).trace
      = ["Summarize this:\n/summarizeXYZ"] ∧
    groqCalls (messageHandler env (humanMessage "/explain")).trace
      = ["Explain this:\n/explain"] ∧
    groqCalls (messageHandler env (humanMessage "/translate")).trace
      = ["Translate this to English:\n/translate"] := by
  refine ⟨?_, ?_, ?_, ?_⟩ <;> exact groqCalls_matched env _ _ rfl (by decide)

/-- What the code does where C5 fails: whenever `callGroq` returns a string `r` for the
prompt the handler built, exactly one channel message is sent, to the channel of the
triggering message, with text `r`. -/
theorem messageHandler_relays_returned_text (env : Env) (m : MessageCreate) (p r : String)
    (hp : groqCalls (messageHandler env m).trace = [p])
    (hr : (callGroq env p).outcome = .returned r) :
    sentMessages (messageHandler env m).trace = [(m.ChannelID, r)] ∧
    (messageHandler env m).outcome = .returned () := by
  obtain ⟨hbot, hs⟩ := switchPrompt_of_groqCalls env m p hp
  refine ⟨sentMessages_matched_returned env m p r hbot hs hr, ?_⟩
  rw [messageHandler_matched env m p hbot hs, hr]

theorem messageHandler_relays_returned_text_witness :
    sentMessages (messageHandler (bodyEnv "" 200 bodyHiThere)
      (humanMessage "/explain foo")).trace
      = [("channel-1", "❌ GROQ_API_KEY is not set in .env")] :=
  (messageHandler_relays_returned_text (bodyEnv "" 200 bodyHiThere)
    (humanMessage "/explain foo") "Explain this:\nfoo" "❌ GROQ_API_KEY is not set in .env"
    (by decide) (by decide)).1

/-- C5 (the code at the failing input): with the API key set and the response body
`{"choices":[1]}`, the handler, on the non-bot message `/summarize hello world`, calls
`callGroq` once, `callGroq` panics, and no channel message is sent. -/
theorem C5_no_reply_when_callGroq_panics :
    groqCalls (messageHandler (bodyEnv "key" 200 bodyChoiceNotObject)
      (humanMessage "/summarize hello world")).trace = ["Summarize this:\nhello world"] ∧
    (callGroq (bodyEnv "key" 200 bodyChoiceNotObject)
      "Summarize this:\nhello world").outcome = .panicked ∧
    sentMessages (messageHandler (bodyEnv "key" 200 bodyChoiceNotObject)
      (humanMessage "/summarize hello world")).trace = [] ∧
    (messageHandler (bodyEnv "key" 200 bodyChoiceNotObject)
      (humanMessage "/summarize hello world")).outcome = .panicked := by
  refine ⟨?_, ?_, ?_, ?_⟩ <;> decide

/-- C6: for every prompt, when `GROQ_API_KEY` is unset (empty), `callGroq` returns the
fixed non-empty string "❌ GROQ_API_KEY is not set in .env" and makes no call on the
HTTP transport. -/
theorem C6_missing_key_no_network (env : Env) (prompt : String)
    (hkey : env.getenv "GROQ_API_KEY" = "") :
    (callGroq env prompt).outcome = .returned "❌ GROQ_API_KEY is not set in .env" ∧
    "❌ GROQ_API_KEY is not set in .env" ≠ "" ∧
    httpCalls (callGroq env prompt).trace = [] := by
  have h : callGroq env prompt = ⟨[], .returned errKeyNotSet⟩ := by
    simp [callGroq, hkey]
  rw [h]
  exact ⟨rfl, by decide, rfl⟩

theorem C6_missing_key_no_network_witness :
    (bodyEnv "" 200 bodyHiThere).getenv "GROQ_API_KEY" = "" ∧
    (callGroq (bodyEnv "" 200 bodyHiThere) "Explain this:\nfoo").outcome
      = .returned "❌ GROQ_API_KEY is not set in .env" ∧
    httpCalls (callGroq (bodyEnv "" 200 bodyHiThere) "Explain this:\nfoo").trace = [] :=
  ⟨rfl,
    (C6_missing_key_no_network (bodyEnv "" 200 bodyHiThere) "Explain this:\nfoo" rfl).1,
    (C6_missing_key_no_network (bodyEnv "" 200 bodyHiThere) "Explain this:\nfoo" rfl).2.2⟩

/-- C7, amended: for every text `t`, when the API key is set and the transport
delivers a response (both are what `deliveredBody` being `some` says) whose body
`json.Unmarshal` decodes without error into an object in which `choices` is a
non-empty array whose first element is an object with a `message` object whose
`content` is the string `t`, `callGroq` returns exactly `t`, unchanged. -/
theorem C7_content_returned_verbatim (env : Env) (prompt body : String)
    (result choice message : JSONObject) (rest : List JSONValue) (t : String)
    (hdel : deliveredBody env prompt = some body)
    (hparse : env.jsonUnmarshal body = .ok result)
    (hchoices : result.index "choices" = .arr (.obj choice :: rest))
    (hmessage : choice.index "message" = .obj message)
    (hcontent : message.index "content" = .str t) :
    (callGroq env prompt).outcome = .returned t := by
  rw [callGroq_outcome_of_body env prompt body result hdel hparse]
  exact extractContent_content result choice message rest t hchoices hmessage hcontent

theorem C7_content_returned_verbatim_witness :
    deliveredBody (bodyEnv "key" 200 bodyHiThere) "Explain this:\nfoo" = some bodyHiThere ∧
    (callGroq (bodyEnv "key" 200 bodyHiThere) "Explain this:\nfoo").outcome
      = .returned "Hi there" :=
  ⟨by decide,
    C7_content_returned_verbatim (bodyEnv "key" 200 bodyHiThere) "Explain this:\nfoo"
      bodyHiThere [("choices", .arr [.obj [("message", .obj [("content", .str "Hi there")])]])]
      [("message", .obj [("content", .str "Hi there")])] [("content", .str "Hi there")] []
      "Hi there" (by decide) rfl rfl rfl rfl⟩

/-- C7 as worded fails: the body `{"choices":[{"message":{"content":"ok"}}],"usage":1e999}`
is a JSON object whose `choices[0].message.content` is the string `ok`, the key is set
and the body is delivered, yet `json.Unmarshal` refuses the number `1e999` and
`callGroq` returns the parse-failure string, not `ok`. -/
theorem C7_counterexample_number_out_of_range :
    (bodyEnv "key" 200 bodyContentOutOfRange).getenv "GROQ_API_KEY" ≠ "" ∧
    deliveredBody (bodyEnv "key" 200 bodyContentOutOfRange) "Explain this:\nfoo"
      = some bodyContentOutOfRange ∧
    JSON.contentOfBody bodyContentOutOfRange = some "ok" ∧
    (callGroq (bodyEnv "key" 200 bodyContentOutOfRange) "Explain this:\nfoo").outcome
      = .returned "❌ Failed to parse Groq response" ∧
    (callGroq (bodyEnv "key" 200 bodyContentOutOfRange) "Explain this:\nfoo").outcome
      ≠ .returned "ok" := by
  refine ⟨?_, ?_, ?_, ?_, ?_⟩ <;> decide

/-- C8, amended: when the API key is set and the response body delivered (both are
what `deliveredBody` being `some` says) is decoded by `json.Unmarshal` without error
into an object whose `choices` is an empty array, or is absent, or is not an array,
`callGroq` returns the fixed non-empty string "❌ No response from Groq model", and
`messageHandler`, for a non-bot message with a recognized command, sends exactly one
reply, to the channel of the message, whose text is that string. -/
theorem C8_empty_choices (env : Env) (body : String) (result : JSONObject)
    (hparse : env.jsonUnmarshal body = .ok result)
    (hchoices : result.index "choices" = .arr [] ∨ result.lookup "choices" = none ∨
      ∀ elems, result.index "choices" ≠ .arr elems) :
    "❌ No response from Groq model" ≠ "" ∧
    (∀ prompt, deliveredBody env prompt = some body →
      (callGroq env prompt).outcome = .returned "❌ No response from Groq model") ∧
    (∀ m : MessageCreate, m.Author.Bot = false →
      (HasPrefix m.Content "/summarize" = true ∨ HasPrefix m.Content "/explain" = true ∨
        HasPrefix m.Content "/translate" = true) →
      (∀ p ∈ groqCalls (messageHandler env m).trace, deliveredBody env p = some body) →
      sentMessages (messageHandler env m).trace
        = [(m.ChannelID, "❌ No response from Groq model")]) := by
  have hcall : ∀ prompt, deliveredBody env prompt = some body →
      (callGroq env prompt).outcome = .returned "❌ No response from Groq model" := by
    intro prompt hdel
    rw [callGroq_outcome_of_body env prompt body result hdel hparse]
    exact extractContent_no_choices result hchoices
  refine ⟨by decide, hcall, ?_⟩
  intro m hbot hrec hdel
  obtain ⟨p, hp⟩ := switchPrompt_some_of_recognized m.Content hrec
  have hcalls := groqCalls_matched env m p hbot hp
  exact sentMessages_matched_returned env m p _ hbot hp
    (hcall p (hdel p (by rw [hcalls]; exact List.mem_singleton.mpr rfl)))

theorem C8_empty_choices_witness :
    (callGroq (bodyEnv "key" 200 bodyNoChoices) "Explain this:\nfoo").outcome
      = .returned "❌ No response from Groq model" ∧
    sentMessages (messageHandler (bodyEnv "key" 200 bodyNoChoices)
      (humanMessage "/explain foo")).trace
      = [("channel-1", "❌ No response from Groq model")] :=
  ⟨(C8_empty_choices (bodyEnv "key" 200 bodyNoChoices) bodyNoChoices [("choices", .arr [])]
      rfl (Or.inl rfl)).2.1 "Explain this:\nfoo" (by decide),
    (C8_empty_choices (bodyEnv "key" 200 bodyNoChoices) bodyNoChoices [("choices", .arr [])]
      rfl (Or.inl rfl)).2.2 (humanMessage "/explain foo") rfl
      (Or.inr (Or.inl (by decide))) (by decide)⟩

/-- C8 as worded fails: the body `{"choices":[],"n":1e999}` is a JSON object whose
`choices` is an empty array, the key is set and the body is delivered, yet
`json.Unmarshal` refuses the number `1e999`: `callGroq` returns the parse-failure
string, and the one reply the handler sends carries that string, not
"❌ No response from Groq model". -/
theorem C8_counterexample_number_out_of_range :
    (bodyEnv "key" 200 bodyNoChoicesOutOfRange).getenv "GROQ_API_KEY" ≠ "" ∧
    deliveredBody (bodyEnv "key" 200 bodyNoChoicesOutOfRange) "Explain this:\nfoo"
      = some bodyNoChoicesOutOfRange ∧
    JSON.choicesLengthOfBody bodyNoChoicesOutOfRange = some 0 ∧
    (callGroq (bodyEnv "key" 200 bodyNoChoicesOutOfRange) "Explain this:\nfoo").outcome
      = .returned "❌ Failed to parse Groq response" ∧
    (callGroq (bodyEnv "key" 200 bodyNoChoicesOutOfRange) "Explain this:\nfoo").outcome
      ≠ .returned "❌ No response from Groq model" ∧
    sentMessages (messageHandler (bodyEnv "key" 200 bodyNoChoicesOutOfRange)
      (humanMessage "/explain foo")).trace
      = [("channel-1", "❌ Failed to parse Groq response")] := by
  refine ⟨?_, ?_, ?_, ?_, ?_, ?_⟩ <;> decide

/-- C9 (the code at the failing inputs): with the API key set, `callGroq` panics, and
returns no string, on the response bodies `{"choices":[1]}` (first choice not an
object), `{"choices":[{}]}` (no `message`) and `{"choices":[{"message":"Hi there"}]}`
(`message` not an object). -/
theorem C9_callGroq_panics_on_malformed_choice :
    (callGroq (bodyEnv "key" 200 bodyChoiceNotObject) "Explain this:\nfoo").outcome
      = .panicked ∧
    (callGroq (bodyEnv "key" 200 bodyChoiceWithoutMessage) "Explain this:\nfoo").outcome
      = .panicked ∧
    (callGroq (bodyEnv "key" 200 bodyMessageNotObject) "Explain this:\nfoo").outcome
      = .panicked := by
  refine ⟨?_, ?_, ?_⟩ <;> decide

/-- C10, amended: `callGroq` never looks at the HTTP status code. Two transports whose
answers differ at most in the status code give the same run of `callGroq`; so a
response with a status outside 200-299 whose body `json.Unmarshal` decodes without
error into an object without `choices` gives "❌ No response from Groq model", and one
whose body decodes without error into an object with a well-formed
`choices[0].message.content` has that text returned as if it were a success. -/
theorem C10_status_code_ignored (env : Env) (prompt : String) :
    (∀ t₁ t₂ : Request → Except Unit Response,
      (∀ req, (t₁ req).map Response.Body = (t₂ req).map Response.Body) →
      callGroq { env with clientDo := t₁ } prompt
        = callGroq { env with clientDo := t₂ } prompt) ∧
    (∀ (resp : Response) (body : String) (result : JSONObject),
      deliveredResponse env prompt = some resp →
      ¬ (200 ≤ resp.StatusCode ∧ resp.StatusCode < 300) →
      resp.Body = .ok body → env.jsonUnmarshal body = .ok result →
      result.lookup "choices" = none →
      (callGroq env prompt).outcome = .returned "❌ No response from Groq model") ∧
    (∀ (resp : Response) (body : String) (result choice message : JSONObject)
      (rest : List JSONValue) (t : String),
      deliveredResponse env prompt = some resp →
      ¬ (200 ≤ resp.StatusCode ∧ resp.StatusCode < 300) →
      resp.Body = .ok body → env.jsonUnmarshal body = .ok result →
      result.index "choices" = .arr (.obj choice :: rest) →
      choice.index "message" = .obj message → message.index "content" = .str t →
      (callGroq env prompt).outcome = .returned t) := by
  refine ⟨fun t₁ t₂ h => callGroq_transport_bodies env t₁ t₂ h prompt, ?_, ?_⟩
  · intro resp body result hdel _ hbody hparse hchoices
    rw [callGroq_outcome_of_delivered env prompt resp body result hdel hbody hparse]
    exact extractContent_no_choices result (Or.inr (Or.inl hchoices))
  · intro resp body result choice message rest t hdel _ hbody hparse h1 h2 h3
    rw [callGroq_outcome_of_delivered env prompt resp body result hdel hbody hparse]
    exact extractContent_content result choice message rest t h1 h2 h3

theorem C10_status_code_ignored_witness :
    callGroq (bodyEnv "key" 200 bodyHiThere) "Explain this:\nfoo"
      = callGroq (bodyEnv "key" 500 bodyHiThere) "Explain this:\nfoo" ∧
    (callGroq (bodyEnv "key" 401 bodyApiError) "Explain this:\nfoo").outcome
      = .returned "❌ No response from Groq model" ∧
    (callGroq (bodyEnv "key" 500 bodyHiThere) "Explain this:\nfoo").outcome
      = .returned "Hi there" :=
  ⟨(C10_status_code_ignored (bodyEnv "key" 200 bodyHiThere) "Explain this:\nfoo").1
      (fun _ => .ok { StatusCode := 200, Body := .ok bodyHiThere })
      (fun _ => .ok { StatusCode := 500, Body := .ok bodyHiThere }) (fun _ => rfl),
    (C10_status_code_ignored (bodyEnv "key" 401 bodyApiError) "Explain this:\nfoo").2.1
      { StatusCode := 401, Body := .ok bodyApiError } bodyApiError
      [("error", .obj [("type", .str "invalid_request_error"),
        ("message", .str "Invalid API Key")])]
      rfl (by decide) rfl rfl rfl,
    (C10_status_code_ignored (bodyEnv "key" 500 bodyHiThere) "Explain this:\nfoo").2.2
      { StatusCode := 500, Body := .ok bodyHiThere } bodyHiThere
      [("choices", .arr [.obj [("message", .obj [("content", .str "Hi there")])]])]
      [("message", .obj [("content", .str "Hi there")])] [("content", .str "Hi there")] []
      "Hi there" rfl (by decide) rfl rfl rfl rfl rfl⟩

/-- C10 as worded fails in its two consequences: with status 401 the body
`{"error":{"message":"Invalid API Key"},"code":1e999}` is a JSON object without
`choices`, and with status 500 the body
`{"choices":[{"message":{"content":"ok"}}],"usage":1e999}` has a well-formed
`choices[0].message.content`; `json.Unmarshal` refuses the number `1e999` in both, and
`callGroq` returns the parse-failure string, neither "❌ No response from Groq model"
nor `ok`. -/
theorem C10_counterexample_number_out_of_range :
    ¬ (200 ≤ 401 ∧ 401 < 300) ∧
    JSON.bodyLacksChoices bodyApiErrorOutOfRange = true ∧
    deliveredBody (bodyEnv "key" 401 bodyApiErrorOutOfRange) "Explain this:\nfoo"
      = some bodyApiErrorOutOfRange ∧
    (callGroq (bodyEnv "key" 401 bodyApiErrorOutOfRange) "Explain this:\nfoo").outcome
      = .returned "❌ Failed to parse Groq response" ∧
    (callGroq (bodyEnv "key" 401 bodyApiErrorOutOfRange) "Explain this:\nfoo").outcome
      ≠ .returned "❌ No response from Groq model" ∧
    ¬ (200 ≤ 500 ∧ 500 < 300) ∧
    JSON.contentOfBody bodyContentOutOfRange = some "ok" ∧
    deliveredBody (bodyEnv "key" 500 bodyContentOutOfRange) "Explain this:\nfoo"
      = some bodyContentOutOfRange ∧
    (callGroq (bodyEnv "key" 500 bodyContentOutOfRange) "Explain this:\nfoo").outcome
      = .returned "❌ Failed to parse Groq response" ∧
    (callGroq (bodyEnv "key" 500 bodyContentOutOfRange) "Explain this:\nfoo").outcome
      ≠ .returned "ok" := by
  refine ⟨?_, ?_, ?_, ?_, ?_, ?_, ?_, ?_, ?_, ?_⟩ <;> decide

end DiscordBot
